import Mathlib

/-!
Verification development for the `pi_control_hub_driver_appletv` driver.

The embedding models the two source modules:

* `commands.py` — the module-level `device_cache = TTLCache(20, ttl=1200)`,
  the connection-scoped execution helper `__execute_while_connected`, the
  command callbacks, `AppleTvDeviceCommand` and `create_commands`;
* `device_driver.py` — `AppleTvDeviceDriver` (`get_command`, `execute`,
  `is_device_ready`) and `AppleTvDeviceDriverDescriptor` (`get_device`,
  `start_pairing`, `finalize_pairing`, `pairing_requests_cache`).

External collaborators (the `pyatv` network library, the `cachetools`
cache, the persistent `FileStorage`) are modelled as follows: the results
of the network calls (`pyatv.scan`, `pyatv.connect`, the remote-control
operation, `pyatv.pair`, `begin`, `finish`) are supplied by an explicit
"world" record, so each driver function becomes a pure function of the
world, the current time, and the cache state, returning its result, the
updated cache and a trace of observable events.  `cachetools.TTLCache`
is modelled after the library it comes from: an LRU-ordered list of
entries, each with an absolute expiry set at insertion time; membership
and reads check expiry but only reads refresh the LRU position, never
the expiry; insertion first drops expired entries, then evicts from the
least-recently-used end to respect `maxsize`.
-/

/-- A device handle as returned by `pyatv.scan`: an opaque configuration
carrying at least a stable identifier and a display name. -/
structure DeviceHandle where
  identifier : String
  name : String
deriving DecidableEq, Repr

/-- `DeviceInfo` from `pi_control_hub_driver_api`: the lightweight record
(`name`, `device_id`) built from a scan result. -/
structure DeviceInfo where
  name : String
  device_id : String
deriving DecidableEq, Repr

/-- The exceptions raised by the driver, plus the transport failures that the
external library can raise through it.  `deviceCommandError` stands for the
`DeviceCommandException` / `CommandExecutionFailed` wrapper that the
documentation of `execute` names; no code path of the source constructs it. -/
inductive PyErr where
  | deviceNotFound (device_id : String)
  | commandNotFound (deviceName : String) (cmd_id : Int)
  | deviceDriverError (pairing_request : String)
  | connectionError
  | operationError
  | cancelled
  | pairingError
  | deviceCommandError (cause : PyErr)
deriving DecidableEq, Repr

/-- Observable events of one driver call, in the order they happen. -/
inductive Ev where
  | scanned (device_id : String)
  | connected
  | opOk
  | opFailed
  | closed
  | pairBegin
  | storageSave
  | pinSubmitted
  | pairFinish
  | pairClose
deriving DecidableEq, Repr

/-- One entry of a `cachetools.TTLCache`: key, value, and the absolute expiry
timestamp fixed when the entry was (re)inserted. -/
structure CEntry (α : Type) where
  key : String
  value : α
  expires : Nat
deriving DecidableEq, Repr

/-- Model of `cachetools.TTLCache`.  `entries` is kept in LRU order: the head
is the least recently used entry, the last element the most recently used. -/
structure TTLCache (α : Type) where
  maxsize : Nat
  ttl : Nat
  entries : List (CEntry α)
deriving DecidableEq, Repr

namespace TTLCache

variable {α : Type}

/-- The first entry stored under `k`, if any. -/
def lookup (c : TTLCache α) (k : String) : Option (CEntry α) :=
  c.entries.find? (fun e => e.key == k)

/-- `k in cache` — true iff an entry for `k` exists and has not expired at
time `t`.  Membership does not touch the LRU order. -/
def contains (c : TTLCache α) (t : Nat) (k : String) : Bool :=
  match c.lookup k with
  | some e => decide (t < e.expires)
  | none => false

/-- `cache[k]` — returns the live value and moves its entry to the
most-recently-used end.  The entry's expiry is not changed by a read. -/
def getitem (c : TTLCache α) (t : Nat) (k : String) : Option α × TTLCache α :=
  match c.lookup k with
  | some e =>
    if t < e.expires then
      (some e.value, { c with entries := c.entries.filter (fun x => !(x.key == k)) ++ [e] })
    else (none, c)
  | none => (none, c)

/-- Drop every entry that has expired at time `t`. -/
def expire (c : TTLCache α) (t : Nat) : TTLCache α :=
  { c with entries := c.entries.filter (fun e => decide (t < e.expires)) }

/-- `cache[k] = v` — first expire stale entries; an existing live entry for
`k` is overwritten with a fresh expiry and moved to the MRU end; a new key
evicts from the LRU end until there is room, then is appended with expiry
`t + ttl`. -/
def setitem (c : TTLCache α) (t : Nat) (k : String) (v : α) : TTLCache α :=
  let c1 := c.expire t
  match c1.lookup k with
  | some _ =>
    { c1 with entries := c1.entries.filter (fun x => !(x.key == k)) ++ [⟨k, v, t + c1.ttl⟩] }
  | none =>
    { c1 with entries := c1.entries.drop (c1.entries.length + 1 - c1.maxsize) ++ [⟨k, v, t + c1.ttl⟩] }

/-- Well-formedness: no two entries share a key (an invariant of the real
dict-backed cache). -/
def Wf (c : TTLCache α) : Prop :=
  (c.entries.map (fun e => e.key)).Nodup

instance (c : TTLCache α) : Decidable c.Wf := by
  unfold Wf
  infer_instance

end TTLCache

/-- `device_cache = TTLCache(20, ttl=1200)` — module-level cache of
`commands.py`, initially empty. -/
def device_cache : TTLCache DeviceHandle :=
  { maxsize := 20, ttl := 1200, entries := [] }

/-- The responses of the external `pyatv` library for one command call:
what a scan restricted to an identifier returns, whether `pyatv.connect`
succeeds, and how the remote-control operation ends (success, failure, or
cancellation). -/
structure World where
  scanResults : String → List DeviceHandle
  connectResult : Except PyErr Unit
  opResult : Except PyErr Unit

/-- Lines 34–41 of `commands.py` — the resolution step of
`__execute_while_connected`: a live cache entry is used as is; otherwise a
scan restricted to `device_id` runs, an empty scan raises
`DeviceNotFoundException`, and the first result is cached and used. -/
def resolve_device (w : World) (t : Nat) (cache : TTLCache DeviceHandle)
    (device_id : String) :
    Except PyErr DeviceHandle × TTLCache DeviceHandle × List Ev :=
  if cache.contains t device_id then
    let g := cache.getitem t device_id
    match g.1 with
    | some dev => (.ok dev, g.2, [])
    | none => (.error (.deviceNotFound device_id), g.2, [])
  else
    match w.scanResults device_id with
    | [] => (.error (.deviceNotFound device_id), cache, [.scanned device_id])
    | dev :: _ => (.ok dev, cache.setitem t device_id dev, [.scanned device_id])

/-- `__execute_while_connected` (`commands.py` lines 30–44): resolve the
device, `pyatv.connect`, run the operation, then
`asyncio.gather(*atv.close())`.  The source has no `try`/`finally`: the
close step runs only when the operation returned normally; a connect
failure or an operation failure (or cancellation) propagates without
reaching the close step. -/
def execute_while_connected (w : World) (t : Nat) (cache : TTLCache DeviceHandle)
    (device_id : String) :
    Except PyErr Unit × TTLCache DeviceHandle × List Ev :=
  let r := resolve_device w t cache device_id
  match r.1 with
  | .error e => (.error e, r.2.1, r.2.2)
  | .ok _ =>
    match w.connectResult with
    | .error e => (.error e, r.2.1, r.2.2)
    | .ok _ =>
      match w.opResult with
      | .ok _ => (.ok (), r.2.1, r.2.2 ++ [.connected, .opOk, .closed])
      | .error e => (.error e, r.2.1, r.2.2 ++ [.connected, .opFailed])

/-- A `pyatv` pairing handler as seen by the driver: the two flags it is
queried for (`device_provides_pin` after `begin`, `has_paired` after
`finish`). -/
structure PairingHandler where
  device_provides_pin : Bool
  has_paired : Bool
deriving DecidableEq, Repr

/-- The responses of the external world for one pairing call: the scan
result, the outcome of `pyatv.pair` and of the handshake steps, and the
fresh `uuid4` string generated for the request. -/
structure PWorld where
  scanResults : String → List DeviceHandle
  pairResult : Except PyErr PairingHandler
  beginResult : Except PyErr Unit
  freshId : String
  finishResult : Except PyErr Unit

/-- `AppleTvDeviceDriverDescriptor.pairing_requests_cache =
TTLCache(maxsize=10, ttl=300)`, initially empty. -/
def pairing_requests_cache : TTLCache PairingHandler :=
  { maxsize := 10, ttl := 300, entries := [] }

/-- `start_pairing` (`device_driver.py` lines 207–241): scan for the device;
an empty scan returns the sentinel `(None, False)` without raising and
without storing anything; otherwise `pyatv.pair`, `begin`, `storage.save`,
then a fresh request id is generated and the handler is stored under it in
`pairing_requests_cache` before `(id, device_provides_pin)` is returned. -/
def start_pairing (w : PWorld) (t : Nat) (cache : TTLCache PairingHandler)
    (device_info : DeviceInfo) (_remote_name : String) :
    Except PyErr (Option String × Bool) × TTLCache PairingHandler × List Ev :=
  match w.scanResults device_info.device_id with
  | [] => (.ok (none, false), cache, [.scanned device_info.device_id])
  | _ :: _ =>
    match w.pairResult with
    | .error e => (.error e, cache, [.scanned device_info.device_id])
    | .ok handler =>
      match w.beginResult with
      | .error e => (.error e, cache, [.scanned device_info.device_id])
      | .ok _ =>
        (.ok (some w.freshId, handler.device_provides_pin),
          cache.setitem t w.freshId handler,
          [.scanned device_info.device_id, .pairBegin, .storageSave])

/-- `finalize_pairing` (`device_driver.py` lines 243–261): a request id that
is not a live member of `pairing_requests_cache` raises
`DeviceDriverException`; otherwise the stored handler is read back (the
read does not remove it), `pin(credentials)`, `finish()`, `close()` and
`storage.save()` run in order, and `has_paired` is returned. -/
def finalize_pairing (w : PWorld) (t : Nat) (cache : TTLCache PairingHandler)
    (pairing_request : String) (_credentials : String) :
    Except PyErr Bool × TTLCache PairingHandler × List Ev :=
  if cache.contains t pairing_request then
    let g := cache.getitem t pairing_request
    match g.1 with
    | none => (.error (.deviceDriverError pairing_request), g.2, [])
    | some handler =>
      match w.finishResult with
      | .error e => (.error e, g.2, [.pinSubmitted])
      | .ok _ =>
        (.ok handler.has_paired, g.2,
          [.pinSubmitted, .pairFinish, .pairClose, .storageSave])
  else
    (.error (.deviceDriverError pairing_request), cache, [])

/-- `AppleTvDeviceDriverDescriptor.get_device` (lines 190–195): scan
restricted to `device_id`; empty raises `DeviceNotFoundException`,
otherwise the first result is turned into a `DeviceInfo`. -/
def get_device (w : World) (device_id : String) : Except PyErr DeviceInfo :=
  match w.scanResults device_id with
  | [] => .error (.deviceNotFound device_id)
  | d :: _ => .ok ⟨d.name, d.identifier⟩

/-- The remote-control operation a command callback performs once connected
(`turn_on`, `turn_off`, …, `home` in `commands.py`). -/
inductive AtvOp where
  | turnOn | turnOff | up | right | down | left | select
  | playPause | back | volumeUp | volumeDown | home
deriving DecidableEq, Repr

/-- `AppleTvDeviceCommand`: id, title, icon name, the captured `device_id`
and the bound callback.  The icon bytes are abstracted by the icon file
name used in `icons/__init__.py`. -/
structure AppleTvDeviceCommand where
  cmd_id : Int
  title : String
  icon : String
  device_id : String
  callback : AtvOp
deriving DecidableEq, Repr

/-- Command ids of `commands.py` lines 155–166. -/
def TURN_ON : Int := 1
def TURN_OFF : Int := 2
def UP : Int := 3
def RIGHT : Int := 4
def DOWN : Int := 5
def LEFT : Int := 6
def SELECT : Int := 7
def PLAY_PAUSE : Int := 8
def BACK : Int := 9
def VOLUME_UP : Int := 10
def VOLUME_DOWN : Int := 11
def HOME : Int := 12

/-- `create_commands` (`commands.py` lines 170–185). -/
def create_commands (device_id : String) : List AppleTvDeviceCommand :=
  [⟨TURN_ON, "On", "turn-on.png", device_id, .turnOn⟩,
   ⟨TURN_OFF, "Off", "turn-off.png", device_id, .turnOff⟩,
   ⟨UP, "Up", "up.png", device_id, .up⟩,
   ⟨RIGHT, "Right", "right.png", device_id, .right⟩,
   ⟨DOWN, "Down", "down.png", device_id, .down⟩,
   ⟨LEFT, "Left", "left.png", device_id, .left⟩,
   ⟨SELECT, "Select", "ok.png", device_id, .select⟩,
   ⟨PLAY_PAUSE, "Play/Pause", "play-pause.png", device_id, .playPause⟩,
   ⟨BACK, "Back", "back.png", device_id, .back⟩,
   ⟨VOLUME_UP, "Volume +", "volume-up.png", device_id, .volumeUp⟩,
   ⟨VOLUME_DOWN, "Volume -", "volume-down.png", device_id, .volumeDown⟩,
   ⟨HOME, "Home", "home.png", device_id, .home⟩]

/-- `AppleTvDeviceCommand.execute` (`commands.py` lines 144–152): await the
bound callback on the captured `device_id` and storage.  Every callback is
one of the `commands.py` operations, each of which is exactly
`__execute_while_connected` with its remote-control step; the step's own
outcome is the world's `opResult`.  No wrapping of failures happens here:
whatever the callback raises propagates unchanged. -/
def AppleTvDeviceCommand.execute (w : World) (t : Nat)
    (cache : TTLCache DeviceHandle) (c : AppleTvDeviceCommand) :
    Except PyErr Unit × TTLCache DeviceHandle × List Ev :=
  execute_while_connected w t cache c.device_id

/-- An `AppleTvDeviceDriver` instance: it keeps the `DeviceInfo` it was
constructed with; its command list is `create_commands(device_id, storage)`
built at construction time. -/
structure AppleTvDeviceDriver where
  device_info : DeviceInfo
deriving DecidableEq, Repr

/-- `AppleTvDeviceDriver.name`. -/
def AppleTvDeviceDriver.name (d : AppleTvDeviceDriver) : String :=
  d.device_info.name

/-- `AppleTvDeviceDriver.get_commands`: returns the list built at
construction. -/
def AppleTvDeviceDriver.get_commands (d : AppleTvDeviceDriver) :
    List AppleTvDeviceCommand :=
  create_commands d.device_info.device_id

/-- `AppleTvDeviceDriver.get_command` (lines 86–107):
`result = list(filter(lambda c: c.id == cmd_id, self.get_commands()))`;
the first element is returned when the filter is non-empty, otherwise
`CommandNotFoundException(self.name, cmd_id)` is raised. -/
def AppleTvDeviceDriver.get_command (d : AppleTvDeviceDriver) (cmd_id : Int) :
    Except PyErr AppleTvDeviceCommand :=
  match d.get_commands.filter (fun c => c.cmd_id == cmd_id) with
  | result :: _ => .ok result
  | [] => .error (.commandNotFound d.name cmd_id)

/-- `AppleTvDeviceDriver.execute` (lines 138–151): the synchronous method
evaluates `command.execute()`.  Since `AppleTvDeviceCommand.execute` is an
`async def`, that call only builds a coroutine object, which the method
discards without awaiting it: the bound operation never runs, the cache is
untouched, no event is observable and no exception reaches the caller. -/
def AppleTvDeviceDriver.execute (_d : AppleTvDeviceDriver) (_w : World) (_t : Nat)
    (cache : TTLCache DeviceHandle) (_command : AppleTvDeviceCommand) :
    Except PyErr Unit × TTLCache DeviceHandle × List Ev :=
  (.ok (), cache, [])

/-- `AppleTvDeviceDriver.is_device_ready` (lines 153–162): the property
returns the literal `True` in every state. -/
def AppleTvDeviceDriver.is_device_ready (_d : AppleTvDeviceDriver) : Bool :=
  true

/-! ### Cache lemmas -/

namespace TTLCache

theorem find?_append_of_none {β : Type} (p : β → Bool) (l1 l2 : List β)
    (h : l1.find? p = none) : (l1 ++ l2).find? p = l2.find? p := by
  induction l1 with
  | nil => simp
  | cons a l ih =>
    cases hpa : p a with
    | true => rw [List.find?_cons_of_pos _ hpa] at h; exact absurd h (by simp)
    | false =>
      rw [List.find?_cons_of_neg _ (by simp [hpa])] at h
      rw [List.cons_append, List.find?_cons_of_neg _ (by simp [hpa])]
      exact ih h

theorem find?_filtered_key_none {α : Type} (l : List (CEntry α)) (k : String) :
    (l.filter (fun x => !(x.key == k))).find? (fun e => e.key == k) = none := by
  rw [List.find?_eq_none]
  intro x hx
  rcases List.mem_filter.mp hx with ⟨_, hk⟩
  simpa using hk

/-- In a list whose keys are nodup, the entry `find?` returns for a key is
the only entry with that key. -/
theorem nodup_find?_unique {α : Type} {k : String} :
    ∀ (l : List (CEntry α)) (e : CEntry α),
      (l.map (fun x => x.key)).Nodup →
      l.find? (fun x => x.key == k) = some e →
      ∀ x ∈ l, x.key = k → x = e := by
  intro l
  induction l with
  | nil => intro e _ hf; simp [List.find?] at hf
  | cons a l ih =>
    intro e hnd hf x hx hk
    rw [List.map_cons, List.nodup_cons] at hnd
    by_cases hpa : a.key = k
    · have hfa : (a :: l).find? (fun x => x.key == k) = some a := by
        simp [List.find?, hpa]
      rw [hfa] at hf
      cases hf
      rcases List.mem_cons.mp hx with h | h
      · exact h
      · exact absurd (List.mem_map.mpr ⟨x, h, by rw [hpa]; exact hk⟩) hnd.1
    · have hpa2 : (a.key == k) = false := by simp [hpa]
      have hfa : (a :: l).find? (fun x => x.key == k) =
          l.find? (fun x => x.key == k) := by
        simp [List.find?, hpa2]
      rw [hfa] at hf
      rcases List.mem_cons.mp hx with h | h
      · subst h; exact absurd hk hpa
      · exact ih e hnd.2 hf x h hk

theorem find?_some_key {α : Type} {l : List (CEntry α)} {k : String}
    {e : CEntry α} (hf : l.find? (fun x => x.key == k) = some e) :
    e.key = k := by
  have h := List.find?_some hf
  simpa using h

/-- After the expiry sweep, a key that is not a live member is gone. -/
theorem expire_lookup_none {α : Type} (c : TTLCache α) (t : Nat) (k : String)
    (hwf : c.Wf) (hc : c.contains t k = false) :
    (c.expire t).lookup k = none := by
  unfold expire lookup
  rw [List.find?_eq_none]
  intro x hx
  rcases List.mem_filter.mp hx with ⟨hmem, hlive⟩
  intro hkx
  unfold contains lookup at hc
  cases hfind : c.entries.find? (fun e => e.key == k) with
  | none => rw [List.find?_eq_none] at hfind; exact hfind x hmem hkx
  | some e =>
    rw [hfind] at hc
    simp only [decide_eq_false_iff_not] at hc
    have hx_e : x = e := nodup_find?_unique c.entries e hwf hfind x hmem (beq_iff_eq.mp hkx)
    subst hx_e
    exact hc (by simpa using hlive)

/-- Inserting a key that is not a live member stores it with expiry
`t + ttl`, and it is the entry `lookup` finds. -/
theorem setitem_lookup_self {α : Type} (c : TTLCache α) (t : Nat) (k : String)
    (v : α) (hwf : c.Wf) (hc : c.contains t k = false) :
    (c.setitem t k v).lookup k = some ⟨k, v, t + c.ttl⟩ := by
  have h1 : (c.expire t).lookup k = none := expire_lookup_none c t k hwf hc
  have hdrop : ((c.expire t).entries.drop
      ((c.expire t).entries.length + 1 - (c.expire t).maxsize)).find?
      (fun e => e.key == k) = none := by
    rw [List.find?_eq_none]
    intro x hx hkx
    have hmem : x ∈ (c.expire t).entries := List.mem_of_mem_drop hx
    have h1' := h1
    unfold lookup at h1'
    rw [List.find?_eq_none] at h1'
    exact h1' x hmem hkx
  unfold setitem
  simp only [h1]
  unfold lookup
  rw [find?_append_of_none _ _ _ hdrop]
  rw [List.find?_cons_of_pos _ (by simp)]
  rfl

/-- A read moves the entry to the MRU end without changing it; in
particular its expiry is untouched. -/
theorem getitem_lookup_self {α : Type} (c : TTLCache α) (t : Nat) (k : String)
    {e : CEntry α} (hl : c.lookup k = some e) (ht : t < e.expires) :
    ((c.getitem t k).2).lookup k = some e := by
  unfold getitem
  rw [hl]
  simp only [if_pos ht]
  unfold lookup
  rw [find?_append_of_none _ _ _ (find?_filtered_key_none c.entries k)]
  have hk : e.key = k := find?_some_key hl
  rw [List.find?_cons_of_pos _ (by simp [hk])]

/-- The value and second component of a successful read. -/
theorem getitem_fst {α : Type} (c : TTLCache α) (t : Nat) (k : String)
    {e : CEntry α} (hl : c.lookup k = some e) (ht : t < e.expires) :
    (c.getitem t k).1 = some e.value := by
  unfold getitem
  rw [hl]
  simp [if_pos ht]

theorem contains_of_lookup_live {α : Type} (c : TTLCache α) (t : Nat)
    (k : String) {e : CEntry α} (hl : c.lookup k = some e)
    (ht : t < e.expires) : c.contains t k = true := by
  unfold contains
  rw [hl]
  simpa using ht

end TTLCache

/-! ### Claim theorems -/

deriving instance DecidableEq for Except

theorem get_command_filter_eq_find? (n : String) (i : Int) :
    ∀ l : List AppleTvDeviceCommand,
      (match l.filter (fun c => c.cmd_id == i) with
       | result :: _ => (Except.ok result : Except PyErr AppleTvDeviceCommand)
       | [] => .error (.commandNotFound n i)) =
      (match l.find? (fun c => c.cmd_id == i) with
       | some c => .ok c
       | none => .error (.commandNotFound n i)) := by
  intro l
  induction l with
  | nil => rfl
  | cons a l ih =>
    cases hp : (a.cmd_id == i) with
    | true => simp [List.filter_cons, List.find?, hp]
    | false => simpa [List.filter_cons, List.find?, hp] using ih

/-- C10: `AppleTvDeviceDriver.is_device_ready` returns the constant `True`
for every driver instance, whatever the device's actual state. -/
theorem C10_is_device_ready_const (d : AppleTvDeviceDriver) :
    d.is_device_ready = true := rfl

/-- C7: `get_command` returns the first catalog command whose id equals
`cmd_id` when one exists, and fails with `CommandNotFoundException` carrying
the device name and the requested id when no catalog command has that id. -/
theorem C7_get_command_lookup (d : AppleTvDeviceDriver) (cmd_id : Int) :
    d.get_command cmd_id =
      (match d.get_commands.find? (fun c => c.cmd_id == cmd_id) with
       | some c => .ok c
       | none => .error (.commandNotFound d.name cmd_id)) := by
  unfold AppleTvDeviceDriver.get_command
  exact get_command_filter_eq_find? d.name cmd_id d.get_commands

/-- C6: `start_pairing` on a device whose scan returns no candidates
returns the sentinel `(None, False)` without raising, stores nothing in
the pairing-request cache, and performs only the scan. -/
theorem C6_start_pairing_unreachable (w : PWorld) (t : Nat)
    (cache : TTLCache PairingHandler) (device_info : DeviceInfo)
    (remote_name : String)
    (h : w.scanResults device_info.device_id = []) :
    start_pairing w t cache device_info remote_name =
      (.ok (none, false), cache, [.scanned device_info.device_id]) := by
  unfold start_pairing
  rw [h]

theorem C6_start_pairing_unreachable_witness :
    start_pairing
      { scanResults := fun _ => [], pairResult := .ok ⟨true, true⟩,
        beginResult := .ok (), freshId := "fresh", finishResult := .ok () }
      0 pairing_requests_cache ⟨"Living Room", "atv1"⟩ "PiControl" =
      (.ok (none, false), pairing_requests_cache, [.scanned "atv1"]) :=
  C6_start_pairing_unreachable _ 0 pairing_requests_cache ⟨"Living Room", "atv1"⟩
    "PiControl" rfl

/-- C4: when the cache entry for `device_id` is absent or expired, an empty
scoped discovery fails with `DeviceNotFoundException` and caches nothing;
a non-empty discovery returns its first result, which is stored in the
cache with the fresh expiry `t + ttl`. -/
theorem C4_resolve_miss (w : World) (t : Nat) (cache : TTLCache DeviceHandle)
    (device_id : String) (hwf : cache.Wf)
    (hmiss : cache.contains t device_id = false) :
    (w.scanResults device_id = [] →
      resolve_device w t cache device_id =
        (.error (.deviceNotFound device_id), cache, [.scanned device_id]))
    ∧ (∀ d ds, w.scanResults device_id = d :: ds →
        (resolve_device w t cache device_id).1 = .ok d
        ∧ (resolve_device w t cache device_id).2.1.lookup device_id =
            some ⟨device_id, d, t + cache.ttl⟩
        ∧ (resolve_device w t cache device_id).2.2 = [.scanned device_id])
    ∧ (w.scanResults device_id = [] →
        get_device w device_id = .error (.deviceNotFound device_id))
    ∧ (∀ d ds, w.scanResults device_id = d :: ds →
        get_device w device_id = .ok ⟨d.name, d.identifier⟩) := by
  refine ⟨?_, ?_, ?_, ?_⟩
  · intro h
    simp [resolve_device, hmiss, h]
  · intro d ds h
    refine ⟨?_, ?_, ?_⟩
    · simp [resolve_device, hmiss, h]
    · have hset := TTLCache.setitem_lookup_self cache t device_id d hwf hmiss
      simp [resolve_device, hmiss, h]
      exact hset
    · simp [resolve_device, hmiss, h]
  · intro h
    simp [get_device, h]
  · intro d ds h
    simp [get_device, h]

theorem C4_resolve_miss_witness :
    (resolve_device
        { scanResults := fun _ => [], connectResult := .ok (), opResult := .ok () }
        0 device_cache "atv1" =
      (.error (.deviceNotFound "atv1"), device_cache, [.scanned "atv1"]))
    ∧ ((resolve_device
        { scanResults := fun _ => [⟨"atv1", "Living Room"⟩], connectResult := .ok (),
          opResult := .ok () }
        0 device_cache "atv1").1 = .ok ⟨"atv1", "Living Room"⟩) :=
  ⟨(C4_resolve_miss
      { scanResults := fun _ => [], connectResult := .ok (), opResult := .ok () }
      0 device_cache "atv1" (by decide) (by decide)).1 rfl,
   ((C4_resolve_miss
      { scanResults := fun _ => [⟨"atv1", "Living Room"⟩], connectResult := .ok (),
        opResult := .ok () }
      0 device_cache "atv1" (by decide) (by decide)).2.1 ⟨"atv1", "Living Room"⟩ []
      rfl).1⟩

/-- C5: resolving the same `device_id` twice within the TTL performs
discovery at most once.  After a first resolution that discovered `d`, a
second resolution at any time before the entry expires is served from the
cache: it returns the same handle `d`, performs no scan (its trace is
empty, whatever the second world would answer), and both calls succeed. -/
theorem C5_second_resolve_cached (w1 w2 : World) (t0 t1 : Nat)
    (cache : TTLCache DeviceHandle) (device_id : String) (d : DeviceHandle)
    (ds : List DeviceHandle) (hwf : cache.Wf)
    (hmiss : cache.contains t0 device_id = false)
    (hscan : w1.scanResults device_id = d :: ds)
    (ht : t1 < t0 + cache.ttl) :
    (resolve_device w1 t0 cache device_id).1 = .ok d
    ∧ (resolve_device w2 t1 (resolve_device w1 t0 cache device_id).2.1
        device_id).1 = .ok d
    ∧ (resolve_device w2 t1 (resolve_device w1 t0 cache device_id).2.1
        device_id).2.2 = [] := by
  have h1 : resolve_device w1 t0 cache device_id =
      (.ok d, cache.setitem t0 device_id d, [.scanned device_id]) := by
    simp [resolve_device, hmiss, hscan]
  have hl : (cache.setitem t0 device_id d).lookup device_id =
      some ⟨device_id, d, t0 + cache.ttl⟩ :=
    TTLCache.setitem_lookup_self cache t0 device_id d hwf hmiss
  have hcont : (cache.setitem t0 device_id d).contains t1 device_id = true :=
    TTLCache.contains_of_lookup_live _ t1 device_id hl ht
  have hg : ((cache.setitem t0 device_id d).getitem t1 device_id).1 = some d :=
    TTLCache.getitem_fst _ t1 device_id hl ht
  refine ⟨by rw [h1], ?_, ?_⟩
  · rw [h1]
    simp [resolve_device, hcont, hg]
  · rw [h1]
    simp [resolve_device, hcont, hg]

theorem C5_second_resolve_cached_witness :
    ((resolve_device
        { scanResults := fun _ => [⟨"atv1", "Living Room"⟩], connectResult := .ok (),
          opResult := .ok () } 0 device_cache "atv1").1 = .ok ⟨"atv1", "Living Room"⟩)
    ∧ ((resolve_device
        { scanResults := fun _ => [], connectResult := .ok (), opResult := .ok () }
        600
        (resolve_device
          { scanResults := fun _ => [⟨"atv1", "Living Room"⟩], connectResult := .ok (),
            opResult := .ok () } 0 device_cache "atv1").2.1
        "atv1").1 = .ok ⟨"atv1", "Living Room"⟩)
    ∧ ((resolve_device
        { scanResults := fun _ => [], connectResult := .ok (), opResult := .ok () }
        600
        (resolve_device
          { scanResults := fun _ => [⟨"atv1", "Living Room"⟩], connectResult := .ok (),
            opResult := .ok () } 0 device_cache "atv1").2.1
        "atv1").2.2 = []) :=
  C5_second_resolve_cached
    { scanResults := fun _ => [⟨"atv1", "Living Room"⟩], connectResult := .ok (),
      opResult := .ok () }
    { scanResults := fun _ => [], connectResult := .ok (), opResult := .ok () }
    0 600 device_cache "atv1" ⟨"atv1", "Living Room"⟩ [] (by decide) (by decide)
    rfl (by decide)

theorem resolve_trace (w : World) (t : Nat) (cache : TTLCache DeviceHandle)
    (device_id : String) :
    (resolve_device w t cache device_id).2.2 = []
    ∨ (resolve_device w t cache device_id).2.2 = [Ev.scanned device_id] := by
  unfold resolve_device
  by_cases h : cache.contains t device_id = true
  · cases hg : (cache.getitem t device_id).1 <;> simp [h, hg]
  · cases hs : w.scanResults device_id <;> simp [h, hs]

theorem ewc_eq (w : World) (t : Nat) (cache : TTLCache DeviceHandle)
    (device_id : String) :
    execute_while_connected w t cache device_id =
      (match (resolve_device w t cache device_id).1 with
       | .error e => (.error e, (resolve_device w t cache device_id).2.1,
           (resolve_device w t cache device_id).2.2)
       | .ok _ =>
         match w.connectResult with
         | .error e => (.error e, (resolve_device w t cache device_id).2.1,
             (resolve_device w t cache device_id).2.2)
         | .ok _ =>
           match w.opResult with
           | .ok _ => (.ok (), (resolve_device w t cache device_id).2.1,
               (resolve_device w t cache device_id).2.2 ++ [.connected, .opOk, .closed])
           | .error e => (.error e, (resolve_device w t cache device_id).2.1,
               (resolve_device w t cache device_id).2.2 ++ [.connected, .opFailed])) :=
  rfl

/-- C1 (counterexample): with a reachable device, a successful connect and
an operation that fails, `__execute_while_connected` records the opened
connection but never a close — the connection leaks while the failure
propagates, contradicting "closed exactly once on every exit path". -/
theorem C1_counterexample :
    ((execute_while_connected
        { scanResults := fun _ => [⟨"atv1", "Living Room"⟩],
          connectResult := .ok (), opResult := .error .operationError }
        0 device_cache "atv1").2.2.count Ev.connected = 1)
    ∧ ((execute_while_connected
        { scanResults := fun _ => [⟨"atv1", "Living Room"⟩],
          connectResult := .ok (), opResult := .error .operationError }
        0 device_cache "atv1").2.2.count Ev.closed = 0)
    ∧ ((execute_while_connected
        { scanResults := fun _ => [⟨"atv1", "Living Room"⟩],
          connectResult := .ok (), opResult := .error .operationError }
        0 device_cache "atv1").1 = .error .operationError) := by
  refine ⟨?_, ?_, ?_⟩ <;> decide

/-- C1 (amended): the connection-scoped helper closes the connection exactly
once when the operation returns normally; on every failing path — connect
failure, operation failure, cancellation — the call propagates the failure
without performing a close, so an opened connection is closed only on the
normal-return path. -/
theorem C1_close_only_on_success (w : World) (t : Nat)
    (cache : TTLCache DeviceHandle) (device_id : String) :
    ((execute_while_connected w t cache device_id).1 = .ok () →
      (execute_while_connected w t cache device_id).2.2.count Ev.closed = 1
      ∧ (execute_while_connected w t cache device_id).2.2.count Ev.connected = 1)
    ∧ (∀ e, (execute_while_connected w t cache device_id).1 = .error e →
      (execute_while_connected w t cache device_id).2.2.count Ev.closed = 0) := by
  have h0 : (resolve_device w t cache device_id).2.2.count Ev.closed = 0
      ∧ (resolve_device w t cache device_id).2.2.count Ev.connected = 0 := by
    rcases resolve_trace w t cache device_id with h | h <;> simp [h]
  cases hres : (resolve_device w t cache device_id).1 with
  | error e0 =>
    constructor
    · intro hok
      rw [ewc_eq, hres] at hok
      simp at hok
    · intro e he
      rw [ewc_eq, hres]
      simp [h0.1]
  | ok dev =>
    cases hc : w.connectResult with
    | error e0 =>
      constructor
      · intro hok
        rw [ewc_eq, hres, hc] at hok
        simp at hok
      · intro e he
        rw [ewc_eq, hres, hc]
        simp [h0.1]
    | ok u =>
      cases hop : w.opResult with
      | error e0 =>
        constructor
        · intro hok
          rw [ewc_eq, hres, hc, hop] at hok
          simp at hok
        · intro e he
          rw [ewc_eq, hres, hc, hop]
          simp [List.count_append, h0.1]
      | ok u2 =>
        constructor
        · intro hok
          rw [ewc_eq, hres, hc, hop]
          simp [List.count_append, h0.1, h0.2]
        · intro e he
          rw [ewc_eq, hres, hc, hop] at he
          simp at he

theorem C1_close_only_on_success_witness :
    ((execute_while_connected
        { scanResults := fun _ => [⟨"atv1", "Living Room"⟩],
          connectResult := .ok (), opResult := .ok () }
        0 device_cache "atv1").2.2.count Ev.closed = 1)
    ∧ ((execute_while_connected
        { scanResults := fun _ => [⟨"atv1", "Living Room"⟩],
          connectResult := .ok (), opResult := .ok () }
        0 device_cache "atv1").2.2.count Ev.connected = 1) :=
  (C1_close_only_on_success
    { scanResults := fun _ => [⟨"atv1", "Living Room"⟩],
      connectResult := .ok (), opResult := .ok () }
    0 device_cache "atv1").1 (by decide)

/-- C2 (counterexample): `finalize_pairing` never deletes the attempt from
`pairing_requests_cache`.  With one stored attempt, a first finalization
succeeds and a second call with the same id within the TTL succeeds again
instead of failing with the not-found error. -/
theorem C2_counterexample :
    ((finalize_pairing
        { scanResults := fun _ => [], pairResult := .ok ⟨true, true⟩,
          beginResult := .ok (), freshId := "fresh", finishResult := .ok () }
        0 { maxsize := 10, ttl := 300, entries := [⟨"req1", ⟨true, true⟩, 300⟩] }
        "req1" "1234").1 = .ok true)
    ∧ ((finalize_pairing
        { scanResults := fun _ => [], pairResult := .ok ⟨true, true⟩,
          beginResult := .ok (), freshId := "fresh", finishResult := .ok () }
        0 (finalize_pairing
            { scanResults := fun _ => [], pairResult := .ok ⟨true, true⟩,
              beginResult := .ok (), freshId := "fresh", finishResult := .ok () }
            0 { maxsize := 10, ttl := 300, entries := [⟨"req1", ⟨true, true⟩, 300⟩] }
            "req1" "1234").2.1
        "req1" "1234").1 = .ok true) := by
  refine ⟨?_, ?_⟩ <;> decide

/-- C2 (amended): `finalize_pairing` does not remove the attempt from the
pairing-request map.  A call whose id is unknown or expired fails with the
`DeviceDriverException` not-found error and changes nothing; a call whose
id is a live member leaves the attempt in the map, so a second call with
the same id within the TTL finds it again instead of failing. -/
theorem C2_finalize_no_removal (w : PWorld) (t : Nat)
    (cache : TTLCache PairingHandler) (pairing_request credentials : String) :
    (cache.contains t pairing_request = false →
      finalize_pairing w t cache pairing_request credentials =
        (.error (.deviceDriverError pairing_request), cache, []))
    ∧ (cache.contains t pairing_request = true →
      ((finalize_pairing w t cache pairing_request credentials).2.1).contains
        t pairing_request = true) := by
  constructor
  · intro h
    simp [finalize_pairing, h]
  · intro h
    have hl : ∃ e, cache.lookup pairing_request = some e ∧ t < e.expires := by
      unfold TTLCache.contains at h
      cases hl : cache.lookup pairing_request with
      | none => rw [hl] at h; simp at h
      | some e =>
        rw [hl] at h
        simp at h
        exact ⟨e, rfl, h⟩
    rcases hl with ⟨e, hl, ht⟩
    have hfst : (cache.getitem t pairing_request).1 = some e.value :=
      TTLCache.getitem_fst cache t pairing_request hl ht
    have hsnd : ((cache.getitem t pairing_request).2).lookup pairing_request =
        some e :=
      TTLCache.getitem_lookup_self cache t pairing_request hl ht
    have hcont2 : ((cache.getitem t pairing_request).2).contains t
        pairing_request = true :=
      TTLCache.contains_of_lookup_live _ t pairing_request hsnd ht
    cases hf : w.finishResult with
    | error e0 =>
      simp [finalize_pairing, h, hfst, hf]
      exact hcont2
    | ok u =>
      simp [finalize_pairing, h, hfst, hf]
      exact hcont2

theorem C2_finalize_no_removal_witness :
    (finalize_pairing
        { scanResults := fun _ => [], pairResult := .ok ⟨true, true⟩,
          beginResult := .ok (), freshId := "fresh", finishResult := .ok () }
        0 pairing_requests_cache "nope" "1234" =
      (.error (.deviceDriverError "nope"), pairing_requests_cache, []))
    ∧ (((finalize_pairing
        { scanResults := fun _ => [], pairResult := .ok ⟨true, true⟩,
          beginResult := .ok (), freshId := "fresh", finishResult := .ok () }
        0 { maxsize := 10, ttl := 300, entries := [⟨"req1", ⟨true, true⟩, 300⟩] }
        "req1" "1234").2.1).contains 0 "req1" = true) :=
  ⟨(C2_finalize_no_removal
      { scanResults := fun _ => [], pairResult := .ok ⟨true, true⟩,
        beginResult := .ok (), freshId := "fresh", finishResult := .ok () }
      0 pairing_requests_cache "nope" "1234").1 (by decide),
   (C2_finalize_no_removal
      { scanResults := fun _ => [], pairResult := .ok ⟨true, true⟩,
        beginResult := .ok (), freshId := "fresh", finishResult := .ok () }
      0 { maxsize := 10, ttl := 300, entries := [⟨"req1", ⟨true, true⟩, 300⟩] }
      "req1" "1234").2 (by decide)⟩

/-- C3: evaluation of the code at the failing input.  With a device the
scan cannot find — a case in which the claim (and the docstrings of both
`execute` methods) expects a command-execution failure to surface —
`AppleTvDeviceDriver.execute` returns normally, with the cache untouched
and no observable event: the un-awaited coroutine is discarded, so the
bound operation is never invoked and no failure of any kind reaches the
caller.  The command coroutine body itself, if it were awaited, would
yield the bare `DeviceNotFoundException`; no code path wraps it in a
command-execution error. -/
theorem C3_execute_never_runs :
    (AppleTvDeviceDriver.execute ⟨⟨"Living Room", "atv1"⟩⟩
        { scanResults := fun _ => [], connectResult := .ok (), opResult := .ok () }
        0 device_cache ⟨TURN_ON, "On", "turn-on.png", "atv1", .turnOn⟩ =
      (.ok (), device_cache, []))
    ∧ ((AppleTvDeviceCommand.execute
        { scanResults := fun _ => [], connectResult := .ok (), opResult := .ok () }
        0 device_cache ⟨TURN_ON, "On", "turn-on.png", "atv1", .turnOn⟩).1 =
      .error (.deviceNotFound "atv1"))
    ∧ ((AppleTvDeviceCommand.execute
        { scanResults := fun _ => [], connectResult := .ok (), opResult := .ok () }
        0 device_cache ⟨TURN_ON, "On", "turn-on.png", "atv1", .turnOn⟩).1 ≠
      .error (.deviceCommandError (.deviceNotFound "atv1"))) := by
  refine ⟨rfl, ?_, ?_⟩ <;> decide

/-- C8: every credential-store mutation made during pairing is flushed via
`storage.save()` before the call returns: whenever `start_pairing` completes
the session's `begin()` step, a save follows it in the call's trace, and
whenever `finalize_pairing` completes the `finish()` step, a save follows it
in the call's trace. -/
theorem C8_mutations_flushed :
    (∀ (w : PWorld) (t : Nat) (cache : TTLCache PairingHandler)
        (device_info : DeviceInfo) (remote_name : String),
      Ev.pairBegin ∈ (start_pairing w t cache device_info remote_name).2.2 →
      ∃ l1 l2, (start_pairing w t cache device_info remote_name).2.2 =
          l1 ++ Ev.pairBegin :: l2 ∧ Ev.storageSave ∈ l2)
    ∧ (∀ (w : PWorld) (t : Nat) (cache : TTLCache PairingHandler)
        (pairing_request credentials : String),
      Ev.pairFinish ∈ (finalize_pairing w t cache pairing_request credentials).2.2 →
      ∃ l1 l2, (finalize_pairing w t cache pairing_request credentials).2.2 =
          l1 ++ Ev.pairFinish :: l2 ∧ Ev.storageSave ∈ l2) := by
  constructor
  · intro w t cache device_info remote_name hmem
    cases hs : w.scanResults device_info.device_id with
    | nil =>
      have htr : (start_pairing w t cache device_info remote_name).2.2 =
          [Ev.scanned device_info.device_id] := by
        simp [start_pairing, hs]
      rw [htr] at hmem
      simp at hmem
    | cons d ds =>
      cases hp : w.pairResult with
      | error e0 =>
        have htr : (start_pairing w t cache device_info remote_name).2.2 =
            [Ev.scanned device_info.device_id] := by
          simp [start_pairing, hs, hp]
        rw [htr] at hmem
        simp at hmem
      | ok handler =>
        cases hb : w.beginResult with
        | error e0 =>
          have htr : (start_pairing w t cache device_info remote_name).2.2 =
              [Ev.scanned device_info.device_id] := by
            simp [start_pairing, hs, hp, hb]
          rw [htr] at hmem
          simp at hmem
        | ok u =>
          refine ⟨[Ev.scanned device_info.device_id], [Ev.storageSave], ?_, ?_⟩
          · simp [start_pairing, hs, hp, hb]
          · simp
  · intro w t cache pairing_request credentials hmem
    by_cases h : cache.contains t pairing_request = true
    · cases hg : (cache.getitem t pairing_request).1 with
      | none =>
        have htr : (finalize_pairing w t cache pairing_request credentials).2.2 =
            [] := by
          simp [finalize_pairing, h, hg]
        rw [htr] at hmem
        simp at hmem
      | some handler =>
        cases hf : w.finishResult with
        | error e0 =>
          have htr : (finalize_pairing w t cache pairing_request
              credentials).2.2 = [Ev.pinSubmitted] := by
            simp [finalize_pairing, h, hg, hf]
          rw [htr] at hmem
          simp at hmem
        | ok u =>
          refine ⟨[Ev.pinSubmitted], [Ev.pairClose, Ev.storageSave], ?_, ?_⟩
          · simp [finalize_pairing, h, hg, hf]
          · simp
    · have h' : cache.contains t pairing_request = false := by simpa using h
      have htr : (finalize_pairing w t cache pairing_request credentials).2.2 =
          [] := by
        simp [finalize_pairing, h']
      rw [htr] at hmem
      simp at hmem

theorem C8_mutations_flushed_witness :
    (∃ l1 l2, (start_pairing
        { scanResults := fun _ => [⟨"atv1", "Living Room"⟩],
          pairResult := .ok ⟨true, false⟩, beginResult := .ok (),
          freshId := "fresh", finishResult := .ok () }
        0 pairing_requests_cache ⟨"Living Room", "atv1"⟩ "PiControl").2.2 =
      l1 ++ Ev.pairBegin :: l2 ∧ Ev.storageSave ∈ l2)
    ∧ (∃ l1 l2, (finalize_pairing
        { scanResults := fun _ => [⟨"atv1", "Living Room"⟩],
          pairResult := .ok ⟨true, false⟩, beginResult := .ok (),
          freshId := "fresh", finishResult := .ok () }
        0 { maxsize := 10, ttl := 300, entries := [⟨"req1", ⟨true, true⟩, 300⟩] }
        "req1" "1234").2.2 = l1 ++ Ev.pairFinish :: l2 ∧ Ev.storageSave ∈ l2) :=
  ⟨C8_mutations_flushed.1
      { scanResults := fun _ => [⟨"atv1", "Living Room"⟩],
        pairResult := .ok ⟨true, false⟩, beginResult := .ok (),
        freshId := "fresh", finishResult := .ok () }
      0 pairing_requests_cache ⟨"Living Room", "atv1"⟩ "PiControl" (by decide),
   C8_mutations_flushed.2
      { scanResults := fun _ => [⟨"atv1", "Living Room"⟩],
        pairResult := .ok ⟨true, false⟩, beginResult := .ok (),
        freshId := "fresh", finishResult := .ok () }
      0 { maxsize := 10, ttl := 300, entries := [⟨"req1", ⟨true, true⟩, 300⟩] }
      "req1" "1234" (by decide)⟩

/-- C9: the device cache holds at most 20 entries with a fixed 1200-second
TTL counted from insertion.  Reading an entry does not refresh its expiry
(the entry `lookup` finds afterwards is unchanged).  When the cache is full
of live entries, inserting a new distinct `device_id` evicts exactly the
least-recently-used entry (the head of the LRU order), after which that
id is no longer a member and a resolution for it performs discovery
again. -/
theorem C9_device_cache_policy :
    device_cache.maxsize = 20
    ∧ device_cache.ttl = 1200
    ∧ (∀ (c : TTLCache DeviceHandle) (t : Nat) (k : String)
        (e : CEntry DeviceHandle),
        c.lookup k = some e → t < e.expires →
        ((c.getitem t k).2).lookup k = some e)
    ∧ (∀ (c : TTLCache DeviceHandle) (t : Nat) (k : String) (v : DeviceHandle)
        (e0 : CEntry DeviceHandle) (rest : List (CEntry DeviceHandle)),
        c.Wf → c.entries = e0 :: rest → c.entries.length = c.maxsize →
        (∀ x ∈ c.entries, t < x.expires) → c.lookup k = none →
        (c.setitem t k v).entries = rest ++ [⟨k, v, t + c.ttl⟩]
        ∧ (c.setitem t k v).contains t e0.key = false
        ∧ (∀ w : World,
            (resolve_device w t (c.setitem t k v) e0.key).2.2 =
              [Ev.scanned e0.key])) := by
  refine ⟨rfl, rfl, ?_, ?_⟩
  · intro c t k e hl ht
    exact TTLCache.getitem_lookup_self c t k hl ht
  · intro c t k v e0 rest hwf hent hlen hlive hnone
    have hexp : c.expire t = c := by
      unfold TTLCache.expire
      have hfil : c.entries.filter (fun e => decide (t < e.expires)) =
          c.entries :=
        List.filter_eq_self.mpr (fun x hx => by simpa using hlive x hx)
      rw [hfil]
    have hset : (c.setitem t k v).entries = rest ++ [⟨k, v, t + c.ttl⟩] := by
      have hlen2 : rest.length + 1 + 1 - c.maxsize = 1 := by
        rw [hent] at hlen
        simp at hlen
        omega
      unfold TTLCache.setitem
      simp only [hexp, hnone, hent, List.length_cons, hlen2]
      simp
    have hwf' : e0.key ∉ rest.map (fun e => e.key) := by
      have h2 := hwf
      unfold TTLCache.Wf at h2
      rw [hent, List.map_cons, List.nodup_cons] at h2
      exact h2.1
    have hnone' : c.entries.find? (fun e => e.key == k) = none := hnone
    have hke0 : ¬(e0.key == k) = true := by
      rw [List.find?_eq_none] at hnone'
      exact hnone' e0 (by rw [hent]; exact List.mem_cons_self e0 rest)
    have hfind : ((rest ++ [⟨k, v, t + c.ttl⟩]) :
        List (CEntry DeviceHandle)).find? (fun x => x.key == e0.key) = none := by
      rw [List.find?_eq_none]
      intro x hx hkx
      rcases List.mem_append.mp hx with hx1 | hx2
      · exact hwf' (List.mem_map.mpr ⟨x, hx1, beq_iff_eq.mp hkx⟩)
      · have hx2' : x = ⟨k, v, t + c.ttl⟩ := by simpa using hx2
        subst hx2'
        exact hke0 (by simpa using (beq_iff_eq.mp hkx).symm)
    have hcont2 : (c.setitem t k v).contains t e0.key = false := by
      unfold TTLCache.contains TTLCache.lookup
      rw [hset, hfind]
    refine ⟨hset, hcont2, ?_⟩
    intro w
    cases hs : w.scanResults e0.key with
    | nil => simp [resolve_device, hcont2, hs]
    | cons d ds => simp [resolve_device, hcont2, hs]

theorem C9_device_cache_policy_witness :
    (((⟨2, 1200, [⟨"a", ⟨"a", "A"⟩, 50⟩, ⟨"b", ⟨"b", "B"⟩, 60⟩]⟩ :
          TTLCache DeviceHandle).setitem 0 "c" ⟨"c", "C"⟩).entries =
        [⟨"b", ⟨"b", "B"⟩, 60⟩, ⟨"c", ⟨"c", "C"⟩, 1200⟩])
    ∧ (((⟨2, 1200, [⟨"a", ⟨"a", "A"⟩, 50⟩, ⟨"b", ⟨"b", "B"⟩, 60⟩]⟩ :
          TTLCache DeviceHandle).setitem 0 "c" ⟨"c", "C"⟩).contains 0 "a" = false)
    ∧ (((⟨2, 1200, [⟨"a", ⟨"a", "A"⟩, 50⟩, ⟨"b", ⟨"b", "B"⟩, 60⟩]⟩ :
          TTLCache DeviceHandle).getitem 0 "a").2.lookup "a" =
        some ⟨"a", ⟨"a", "A"⟩, 50⟩) :=
  ⟨(C9_device_cache_policy.2.2.2
      ⟨2, 1200, [⟨"a", ⟨"a", "A"⟩, 50⟩, ⟨"b", ⟨"b", "B"⟩, 60⟩]⟩
      0 "c" ⟨"c", "C"⟩ ⟨"a", ⟨"a", "A"⟩, 50⟩ [⟨"b", ⟨"b", "B"⟩, 60⟩]
      (by decide) rfl (by decide) (by decide) (by decide)).1,
   (C9_device_cache_policy.2.2.2
      ⟨2, 1200, [⟨"a", ⟨"a", "A"⟩, 50⟩, ⟨"b", ⟨"b", "B"⟩, 60⟩]⟩
      0 "c" ⟨"c", "C"⟩ ⟨"a", ⟨"a", "A"⟩, 50⟩ [⟨"b", ⟨"b", "B"⟩, 60⟩]
      (by decide) rfl (by decide) (by decide) (by decide)).2.1,
   C9_device_cache_policy.2.2.1
      ⟨2, 1200, [⟨"a", ⟨"a", "A"⟩, 50⟩, ⟨"b", ⟨"b", "B"⟩, 60⟩]⟩
      0 "a" ⟨"a", ⟨"a", "A"⟩, 50⟩ (by decide) (by decide)⟩
